import Mathlib

/-!
Verification of the delira 2D-segmentation notebook
(`src/notebooks/segmentation_2d_pytorch.ipynb`).

The notebook wires a single 2D image/label slice pair into a dataset
adapter (`CustomDataset`), a transform pipeline (`Compose` of four
batchgenerators transforms) and a data manager, and launches an external
training loop.  This file shallowly embeds the data model and the
operations of that wiring and proves the specified properties about them.

Numpy arrays are embedded as a shape (a list of dimension sizes)
together with a flat row-major data list of integer-valued elements;
none of the verified properties depends on floating-point arithmetic of
the elements, only on shapes and whole-value equality.
-/

/-- A numpy ndarray: a shape together with its flat row-major contents. -/
structure NDArray where
  shape : List Nat
  data : List Int
deriving DecidableEq, Repr

/-- Embeds the notebook call `a.reshape(1, *a.shape)`: prepend a channel
axis of size 1.  The flat data is unchanged and the element count is
preserved, since `1 * a.shape.prod = a.shape.prod`, so numpy's reshape
cannot fail on this call. -/
def NDArray.reshape1 (a : NDArray) : NDArray :=
  { shape := 1 :: a.shape, data := a.data }

/-- The dict `{"data": ..., "label": ...}` built by `CustomDataset.__init__`
and flowing through the transform pipeline: a 2D image array and its
matching 2D label array. -/
structure Sample where
  data : NDArray
  label : NDArray
deriving DecidableEq, Repr

/-- `CustomDataset` from the notebook: it owns the one stored sample dict
(`self.data`) and an integer `num_samples`. -/
structure CustomDataset where
  data : Sample
  num_samples : Int
deriving DecidableEq, Repr

/-- `CustomDataset.__init__(img, mask, num_samples)`: stores
`{"data": img.reshape(1, *img.shape), "label": mask.reshape(1, *mask.shape)}`
and the given `num_samples`. -/
def CustomDataset.init (img mask : NDArray) (num_samples : Int) : CustomDataset :=
  { data := { data := img.reshape1, label := mask.reshape1 },
    num_samples := num_samples }

/-- `CustomDataset.__getitem__(self, index)`: `return self.data`.  The
source performs no bounds check and has no error path, so the embedding
is a total function of the integer index. -/
def CustomDataset.getitem (d : CustomDataset) (index : Int) : Sample :=
  d.data

/-- `CustomDataset.__len__(self)`: `return self.num_samples`. -/
def CustomDataset.len (d : CustomDataset) : Int :=
  d.num_samples

/-- The contract claimed by the spec for `get`, written from the spec's
words (not from the source) for comparison with `CustomDataset.getitem`:
an IndexError-equivalent (`none`) exactly when the index lies outside
`[0, length())`, and the stored sample otherwise. -/
def CustomDataset.getitemSpec (d : CustomDataset) (index : Int) : Option Sample :=
  if 0 ≤ index ∧ index < d.num_samples then some d.data else none

/-- Models the effect of a Python in-place mutation of the stored sample
dict in state-passing style: the single dict owned by the dataset is
replaced by its updated value.  Because `__getitem__` returns `self.data`
itself (not a copy), a mutation of any returned sample is exactly a
mutation of this one stored dict. -/
def CustomDataset.mutateStored (d : CustomDataset) (f : Sample → Sample) : CustomDataset :=
  { d with data := f d.data }

/-- Embeds the notebook's loading cell: `assert mask.shape == img.shape`
is the only validation between loading and slicing; on success the pair
is available unchanged, on shape mismatch the notebook aborts (`none`). -/
def loadVolumePair (img mask : NDArray) : Option (NDArray × NDArray) :=
  if mask.shape = img.shape then some (img, mask) else none

/-- A small concrete image array used as a witness input. -/
def imgEx : NDArray :=
  { shape := [2, 2], data := [1, 2, 3, 4] }

/-- A small concrete label array used as a witness input. -/
def maskEx : NDArray :=
  { shape := [2, 2], data := [0, 1, 1, 0] }

/-- C1: for every valid index `i` with `0 ≤ i < length()`, `getitem i`
returns the one stored sample — the dict holding exactly the reshaped
image and label arrays stored at construction — independent of `i`: any
two valid indices yield the same result. -/
theorem getitem_returns_stored_sample (img mask : NDArray) (n i : Int)
    (h0 : 0 ≤ i) (h1 : i < n) :
    (CustomDataset.init img mask n).getitem i =
      { data := img.reshape1, label := mask.reshape1 } ∧
    ∀ j : Int, 0 ≤ j → j < n →
      (CustomDataset.init img mask n).getitem i =
        (CustomDataset.init img mask n).getitem j :=
  ⟨rfl, fun _ _ _ => rfl⟩

/-- Witness for C1: on a dataset built with `num_samples = 10`, index 0 is
valid, `getitem 0` is the stored reshaped pair, and it agrees with
`getitem 9`. -/
theorem getitem_returns_stored_sample_witness :
    (0 : Int) ≤ 0 ∧ (0 : Int) < 10 ∧
    (CustomDataset.init imgEx maskEx 10).getitem 0 =
      { data := imgEx.reshape1, label := maskEx.reshape1 } ∧
    (CustomDataset.init imgEx maskEx 10).getitem 0 =
      (CustomDataset.init imgEx maskEx 10).getitem 9 :=
  ⟨by decide, by decide,
   (getitem_returns_stored_sample imgEx maskEx 10 0 (by decide) (by decide)).1,
   (getitem_returns_stored_sample imgEx maskEx 10 0 (by decide) (by decide)).2
     9 (by decide) (by decide)⟩

/-- Counterexample to C2: on a dataset of length 10, the out-of-range
index 10 does not raise — `getitem 10` returns the stored sample — while
the claimed contract (`getitemSpec`, written from the spec's words)
demands an IndexError-equivalent there.  `__getitem__` has no bounds
check at all. -/
theorem getitem_out_of_range_counterexample :
    (CustomDataset.init imgEx maskEx 10).getitem 10 =
      (CustomDataset.init imgEx maskEx 10).data ∧
    (CustomDataset.init imgEx maskEx 10).getitemSpec 10 = none :=
  ⟨rfl, by decide⟩

/-- C2 amended: `getitem` never raises for any integer index; in range or
out of range, it performs no bounds check and returns the stored sample
dict, with no side effects (the dataset is unchanged). -/
theorem getitem_no_error_any_index (img mask : NDArray) (n index : Int) :
    (CustomDataset.init img mask n).getitem index =
      (CustomDataset.init img mask n).data :=
  rfl

/-- C3: for every integer `n`, a dataset constructed with
`num_samples = n` has `length() = n`. -/
theorem len_eq_num_samples (img mask : NDArray) (n : Int) :
    (CustomDataset.init img mask n).len = n :=
  rfl

/-- C4: loading validates exactly the shape equality of the two volumes:
the pair is produced, unchanged, exactly when the shapes are equal, and
loading aborts exactly when they differ. -/
theorem loadVolumePair_shape_validation (img mask : NDArray) :
    (loadVolumePair img mask = some (img, mask) ↔ mask.shape = img.shape) ∧
    (loadVolumePair img mask = none ↔ ¬ mask.shape = img.shape) := by
  unfold loadVolumePair
  by_cases h : mask.shape = img.shape <;> simp [h]

/-- C5: the stored sample holds the image and the label each reshaped to
carry a leading channel dimension of size 1 — for an input image of
shape `s` the stored image array has shape `1 :: s`, likewise for the
label — and this one sample is shared by every synthetic index. -/
theorem stored_sample_channel_dim (img mask : NDArray) (n : Int) :
    (CustomDataset.init img mask n).data.data.shape = 1 :: img.shape ∧
    (CustomDataset.init img mask n).data.data.data = img.data ∧
    (CustomDataset.init img mask n).data.label.shape = 1 :: mask.shape ∧
    (CustomDataset.init img mask n).data.label.data = mask.data ∧
    ∀ i : Int, (CustomDataset.init img mask n).getitem i =
      (CustomDataset.init img mask n).data :=
  ⟨rfl, rfl, rfl, rfl, fun _ => rfl⟩

/-- C9: `__getitem__` is total over all integer indices — negative ones
and ones at or beyond `num_samples` included — with no bounds check: it
returns the stored sample dict for every index of every dataset. -/
theorem getitem_total_all_indices (d : CustomDataset) (index : Int) :
    d.getitem index = d.data :=
  rfl

/-- C10: every call returns the one stored dict: `getitem i` and
`getitem j` are the same value for all `i`, `j`, and an in-place
mutation of the stored dict is visible through every index — the samples
are aliased, not copies. -/
theorem getitem_aliased_shared (d : CustomDataset) (i j : Int) :
    d.getitem i = d.getitem j ∧
    ∀ f : Sample → Sample,
      (d.mutateStored f).getitem i = f (d.getitem j) :=
  ⟨rfl, fun _ => rfl⟩

/-!
Transform pipeline.  The four transforms composed in the notebook
(`RandomCropTransform`, `ResizeTransform`,
`ContrastAugmentationTransform`, `MeanStdNormalizationTransform`) and
their `Compose` combinator are batchgenerators library code, which the
spec places out of scope as external implementations; what the notebook
contributes is the declared stage list and its order.  The stage
semantics below are therefore modelled from the spec's description of
each stage, at the level the claims address: shapes, which keys each
stage touches, and the declared order.  Randomness is passed explicitly:
the crop offsets and the contrast factor are parameters standing for the
stage-local random draws.
-/

/-- Build a 3D channel-first array of shape `[c, h, w]` from an element
function, laid out flat in row-major order. -/
def mkNDArray3 (c h w : Nat) (f : Nat → Nat → Nat → Int) : NDArray :=
  { shape := [c, h, w],
    data := (List.range (c * h * w)).map
      (fun idx => f (idx / (h * w)) (idx % (h * w) / w) (idx % w)) }

/-- Element of a 3D channel-first array at `(c, i, j)`, reading the flat
row-major data; 0 outside a 3D shape or out of bounds. -/
def NDArray.get3 (a : NDArray) (c i j : Nat) : Int :=
  match a.shape with
  | [_, h, w] => a.data.getD (c * (h * w) + i * w + j) 0
  | _ => 0

/-- Modelled from the spec: `RandomCropTransform((cropH, cropW),
label_key="label")` — a random spatial crop to a fixed smaller size,
constrained to the label key so the crop coordinates `(oy, ox)` (the
random draw, passed explicitly) apply identically to image and label.
Samples that are not 3D channel-first arrays pass through unchanged. -/
def randomCropTransform (cropH cropW oy ox : Nat) (s : Sample) : Sample :=
  match s.data.shape, s.label.shape with
  | [c, _, _], [cl, _, _] =>
    { data := mkNDArray3 c cropH cropW (fun ch i j => s.data.get3 ch (oy + i) (ox + j)),
      label := mkNDArray3 cl cropH cropW (fun ch i j => s.label.get3 ch (oy + i) (ox + j)) }
  | _, _ => s

/-- Modelled from the spec: `ResizeTransform((newH, newW),
label_key="label")` — a deterministic resize of image and label to the
fixed target resolution; a nearest-neighbour index mapping stands in for
the external interpolation kernel, which the claims do not depend on. -/
def resizeTransform (newH newW : Nat) (s : Sample) : Sample :=
  match s.data.shape, s.label.shape with
  | [c, h, w], [cl, hl, wl] =>
    { data := mkNDArray3 c newH newW (fun ch i j => s.data.get3 ch (i * h / newH) (j * w / newW)),
      label := mkNDArray3 cl newH newW (fun ch i j => s.label.get3 ch (i * hl / newH) (j * wl / newW)) }
  | _, _ => s

/-- Modelled from the spec: `ContrastAugmentationTransform()` — a
randomized contrast adjustment applied to the image channel only; the
random factor is passed explicitly and acts element-wise on the image
data, the label is untouched and the shape is preserved. -/
def contrastAugmentationTransform (factor : Int) (s : Sample) : Sample :=
  { s with data := { shape := s.data.shape, data := s.data.data.map (fun x => factor * x) } }

/-- Modelled from the spec: `MeanStdNormalizationTransform(mean, std)` —
normalization of the image channel subtracting the externally supplied
mean and dividing by the externally supplied standard deviation; the
label is untouched and the shape is preserved. -/
def meanStdNormalizationTransform (mean std : Int) (s : Sample) : Sample :=
  { s with data := { shape := s.data.shape, data := s.data.data.map (fun x => (x - mean) / std) } }

/-- Modelled from the spec: batchgenerators `Compose` — the stages
compose in the declared list order into a single pipeline, each stage
consuming the previous stage's output sample. -/
def composeTransforms (ts : List (Sample → Sample)) (s : Sample) : Sample :=
  ts.foldl (fun acc t => t acc) s

/-- The `transforms` list declared in the notebook: random crop to
150×150 constrained to the label key, resize to 224×224, contrast
jitter, then mean/std normalization with externally supplied values. -/
def transforms (oy ox : Nat) (factor mean std : Int) : List (Sample → Sample) :=
  [randomCropTransform 150 150 oy ox,
   resizeTransform 224 224,
   contrastAugmentationTransform factor,
   meanStdNormalizationTransform mean std]

/-- C6: the pipeline applies its stages to every fetched sample in
exactly the declared order — crop to 150×150 (with the crop coordinates
applied identically to image and label), then resize to 224×224, then
contrast adjustment, then normalization with the supplied mean and
standard deviation — whatever the sample and the random draws. -/
theorem transforms_fixed_order (oy ox : Nat) (factor mean std : Int) (s : Sample) :
    composeTransforms (transforms oy ox factor mean std) s =
      meanStdNormalizationTransform mean std
        (contrastAugmentationTransform factor
          (resizeTransform 224 224
            (randomCropTransform 150 150 oy ox s))) :=
  rfl

/-- C7: for every input sample whose spatial size is at least the crop
size 150×150, the full pipeline's output has image and label spatial
size equal to the target resize size 224×224, regardless of the input
spatial size and of the random draws; the channel counts pass through. -/
theorem pipeline_output_shape (oy ox : Nat) (factor mean std : Int) (s : Sample)
    (c h w cl : Nat)
    (hd : s.data.shape = [c, h, w]) (hl : s.label.shape = [cl, h, w])
    (hh : 150 ≤ h) (hw : 150 ≤ w)
    (hoy : oy + 150 ≤ h) (hox : ox + 150 ≤ w) :
    (composeTransforms (transforms oy ox factor mean std) s).data.shape = [c, 224, 224] ∧
    (composeTransforms (transforms oy ox factor mean std) s).label.shape = [cl, 224, 224] := by
  simp only [composeTransforms, transforms, List.foldl]
  simp [randomCropTransform, resizeTransform, contrastAugmentationTransform,
    meanStdNormalizationTransform, mkNDArray3, hd, hl]

/-- A concrete 1×150×150 sample (image and label all zero), the smallest
spatial size the crop admits, used as a witness input. -/
def sliceEx : Sample :=
  { data := { shape := [1, 150, 150], data := List.replicate 22500 0 },
    label := { shape := [1, 150, 150], data := List.replicate 22500 0 } }

/-- Witness for C7: on the concrete 1×150×150 sample, with crop offsets
0, contrast factor 1, mean 0 and std 1, the hypotheses hold and the
pipeline output has spatial size 224×224 for image and label. -/
theorem pipeline_output_shape_witness :
    sliceEx.data.shape = [1, 150, 150] ∧
    sliceEx.label.shape = [1, 150, 150] ∧
    150 ≤ 150 ∧ 0 + 150 ≤ 150 ∧
    (composeTransforms (transforms 0 0 1 0 1) sliceEx).data.shape = [1, 224, 224] ∧
    (composeTransforms (transforms 0 0 1 0 1) sliceEx).label.shape = [1, 224, 224] :=
  ⟨rfl, rfl, by decide, by decide,
   (pipeline_output_shape 0 0 1 0 1 sliceEx 1 150 150 1 rfl rfl
     (by decide) (by decide) (by decide) (by decide)).1,
   (pipeline_output_shape 0 0 1 0 1 sliceEx 1 150 150 1 rfl rfl
     (by decide) (by decide) (by decide) (by decide)).2⟩

/-!
Data manager.  `BaseDataManager` and `SequentialSampler` are delira
framework code that is not under `src/` (only their call sites in the
notebook are), so their batching behaviour is modelled from the spec.
-/

/-- Modelled from the spec: delira's `SequentialSampler` (not under
`src/`) yields the dataset indices of one pass in ascending order. -/
def sequentialSamplerIndices (n : Nat) : List Nat :=
  List.range n

/-- Split a list into consecutive chunks of size `b`, the last chunk
smaller when `b` does not divide the length.  The fuel argument bounds
the recursion by the list length; one pass with `b ≥ 1` consumes at
least one element per step, so the fuel never runs out on such calls. -/
def chunkAux (b : Nat) : Nat → List Nat → List (List Nat)
  | 0, _ => []
  | _ + 1, [] => []
  | fuel + 1, x :: xs => ((x :: xs).take b) :: chunkAux b fuel ((x :: xs).drop b)

/-- Modelled from the spec: the data manager groups the sampled index
sequence of one pass into consecutive mini-batches of `batch_size`
samples, the last batch smaller when `batch_size` does not divide the
sample count (delira `BaseDataManager`, not under `src/`). -/
def chunk (b : Nat) (l : List Nat) : List (List Nat) :=
  chunkAux b l.length l

/-- Modelled from the spec: one pass of a `BaseDataManager` built over a
dataset with the sequential sampling strategy — the ascending index
sequence is chunked into `batch_size`-bounded batches and each index is
fetched from the dataset. -/
def dataManagerBatches (d : CustomDataset) (batch_size : Nat) : List (List Sample) :=
  (chunk batch_size (sequentialSamplerIndices d.num_samples.toNat)).map
    (fun idxs => idxs.map (fun i => d.getitem (Int.ofNat i)))

/-- C8: a data manager with `batch_size = 4` over a 10-sample dataset
with sequential sampling yields per pass the indices in ascending order,
grouped into exactly 3 batches (`ceil(10/4)`), the first two of size 4
and the last of size 2. -/
theorem dataManager_batches_ten_four :
    sequentialSamplerIndices 10 = [0, 1, 2, 3, 4, 5, 6, 7, 8, 9] ∧
    chunk 4 (sequentialSamplerIndices 10) = [[0, 1, 2, 3], [4, 5, 6, 7], [8, 9]] ∧
    (dataManagerBatches (CustomDataset.init imgEx maskEx 10) 4).length = 3 ∧
    (dataManagerBatches (CustomDataset.init imgEx maskEx 10) 4).map List.length = [4, 4, 2] := by
  refine ⟨by decide, by decide, rfl, rfl⟩
